import Mathlib

/-
Verification of the seating-chart editor in src/App.tsx.

Shallow embedding conventions:
* Angles are stored in units of pi radians: the source value
  i * (2 * Math.PI / count) is represented by the rational i * (2 / count),
  and Math.PI itself by the rational 1.  Pixel coordinates are rationals.
* The React component state (tables, savedTables, unsavedChanges, the two
  ref cells isLocalUpdate and isRemoteUpdate, dragOffset) is gathered in a
  SyncState record.  Outbound effects are made observable: every document
  upsert issued to the store is recorded in the upserts field, every
  logChange call in the audit field, and every console error from the
  manual-save failure branch in the errors field.
* Asynchronous results (upsert success or failure, the initial read) are
  passed as explicit parameters to the functions that consume them.
-/

set_option maxHeartbeats 1000000

namespace PlanTable

/-- Helper getUserFromURL from src/App.tsx lines 9-12: reads the user query
parameter; the JS expression params.get("user") || "Anonyme" falls back to
the literal "Anonyme" when the parameter is absent (null) or empty (falsy). -/
def getUserFromURL (param : Option String) : String :=
  match param with
  | some s => if s = "" then "Anonyme" else s
  | none => "Anonyme"

/-- A seat (interface Chair, lines 40-45).  The angle field stores the angle
in units of pi radians. -/
structure Chair where
  id : Int
  name : String
  group : String
  angle : Rat
deriving DecidableEq

/-- A table (interface Table, lines 46-53).  The optional special marker of
the source (absent meaning falsy) is represented by a mandatory Bool. -/
structure Table where
  id : Int
  x : Rat
  y : Rat
  chairs : List Chair
  isDragging : Bool
  special : Bool
deriving DecidableEq

/-- createChairs (lines 56-68).  The source defaults count to 10 and
prevChairs to []; call sites here pass those defaults explicitly.  The JS
read prevChairs[i]?.name || "" yields the previous name when a previous
chair exists at index i (an empty previous name stays empty either way)
and "" otherwise; likewise for group. -/
def createChairs (tableId : Int) (count : Nat) (prevChairs : List Chair) : List Chair :=
  let angleStep : Rat := 2 / count
  (List.range count).map fun (i : Nat) =>
    { id := tableId * 100 + i
      name := match prevChairs[i]? with | some c => c.name | none => ""
      group := match prevChairs[i]? with | some c => c.group | none => ""
      angle := i * angleStep }

/-- The special head table pushed first by generateInitialTables (lines
74-84): id 0, two chairs with ids 1 and 2 at angles 0 and pi. -/
def headTable : Table :=
  { id := 0, x := 700, y := 80
    chairs := [ { id := 1, name := "", group := "", angle := 0 }
              , { id := 2, name := "", group := "", angle := 1 } ]
    isDragging := false, special := true }

/-- The body of the loop of generateInitialTables (lines 88-100) for index
i in 1..50; spacingX = 160 and spacingY = 140 are the constants of lines
86-87. -/
def regularTable (i : Nat) : Table :=
  let spacingX : Rat := 160
  let spacingY : Rat := 140
  let leftSide := i ≤ 25
  let row := ((i - 1) % 25) / 5
  let col := (i - 1) % 5
  let x : Rat := if leftSide then 300 + col * spacingX else 1000 + col * spacingX
  let y : Rat := 300 + row * spacingY
  { id := i, x := x, y := y, chairs := createChairs i 10 [], isDragging := false
    special := false }

/-- generateInitialTables (lines 71-103): the special head table followed by
the 50 regular tables with ids 1..50, each with createChairs(i) giving 10
chairs. -/
def generateInitialTables : List Table :=
  headTable :: (List.range 50).map (fun k => regularTable (k + 1))

/-- The structured details of a logChange call.  The save_tables details of
the source carry only a timestamp string, abstracted away here. -/
inductive LogDetails where
  | moveTable (tableId : Int) (newX newY : Rat)
  | updateChair (tableId chairId : Int) (field : String) (previous updated : Chair)
  | adjustChairCount (tableId : Int) (before after : Nat)
  | saveTables
  | resetChanges
deriving DecidableEq

/-- One row inserted into the logs table by logChange (lines 15-26). -/
structure AuditEntry where
  user : String
  action : String
  details : LogDetails
deriving DecidableEq

/-- The per-session state of the component, with observable effect logs. -/
structure SyncState where
  tables : List Table
  savedTables : List Table
  unsavedChanges : Bool
  isLocalUpdate : Bool
  isRemoteUpdate : Bool
  dragOffset : Rat × Rat
  audit : List AuditEntry
  upserts : List (List Table)
  errors : List String
deriving DecidableEq

/-- The state right after mounting (lines 107-126): both tables and
savedTables are initialised with generateInitialTables(), all flags false,
no effects recorded yet. -/
def initialState : SyncState :=
  { tables := generateInitialTables
    savedTables := generateInitialTables
    unsavedChanges := false
    isLocalUpdate := false
    isRemoteUpdate := false
    dragOffset := (0, 0)
    audit := []
    upserts := []
    errors := [] }

/-- Outcome of the initial read of document id 1 (lines 131-135): either the
row was found with its data, or the read errored (a missing row makes
single() report an error, so not-found and failure land in one branch,
exactly as the source only distinguishes the happy path). -/
inductive ReadResult where
  | found (data : List Table)
  | notFoundOrError
deriving DecidableEq

/-- Effect 1, initial load (lines 128-141): on a successful read of row id 1
both tables and savedTables become the fetched data; otherwise the effect
does nothing at all: no seeding write, no error reporting. -/
def initialLoad (r : ReadResult) (s : SyncState) : SyncState :=
  match r with
  | .found d => { s with tables := d, savedTables := d }
  | .notFoundOrError => s

/-- Effect 2, realtime subscription handler (lines 144-170): on an UPDATE
notification for row id 1 carrying data updatedData, set the isRemoteUpdate
ref, set savedTables to the payload, and set tables to the payload only
when no unsaved local changes exist. -/
def onRemoteUpdate (updatedData : List Table) (s : SyncState) : SyncState :=
  { s with isRemoteUpdate := true
           savedTables := updatedData
           tables := if s.unsavedChanges then s.tables else updatedData }

/-- Effect 3, auto save on tables change (lines 173-189), parameterised by
the outcome of the upsert.  When isRemoteUpdate is set, the effect only
clears it and returns early, leaving isLocalUpdate untouched.  When
isLocalUpdate is unset nothing happens.  Otherwise the current tables are
upserted; on success savedTables is set to tables and unsavedChanges is
cleared; in both outcomes isLocalUpdate is cleared at the end. -/
def autoSaveEffect (upsertOk : Bool) (s : SyncState) : SyncState :=
  if s.isRemoteUpdate then { s with isRemoteUpdate := false }
  else if s.isLocalUpdate = false then s
  else
    let afterUpsert :=
      if upsertOk then
        { s with upserts := s.upserts ++ [s.tables]
                 savedTables := s.tables
                 unsavedChanges := false }
      else
        { s with upserts := s.upserts ++ [s.tables] }
    { afterUpsert with isLocalUpdate := false }

/-- handleMouseDown (lines 192-197). -/
def handleMouseDown (id : Int) (clientX clientY : Rat) (s : SyncState) : SyncState :=
  { s with dragOffset := (clientX, clientY)
           tables := s.tables.map fun t =>
             if t.id = id then { t with isDragging := true } else t }

/-- handleMouseMove (lines 199-208): every dragging table moves by the delta
of the pointer; the dirty flag is not touched here. -/
def handleMouseMove (clientX clientY : Rat) (s : SyncState) : SyncState :=
  let dx := clientX - s.dragOffset.1
  let dy := clientY - s.dragOffset.2
  { s with dragOffset := (clientX, clientY)
           tables := s.tables.map fun t =>
             if t.isDragging then { t with x := t.x + dx, y := t.y + dy } else t }

/-- The move_table log entries issued inside the handleMouseUp map, one per
dragging table, in table order. -/
def moveLogs (user : String) (tables : List Table) : List AuditEntry :=
  tables.filterMap fun t =>
    if t.isDragging then
      some { user := user, action := "move_table", details := .moveTable t.id t.x t.y }
    else none

/-- handleMouseUp (lines 210-223): each dragging table logs a move_table
entry and sets the isLocalUpdate ref and the dirty flag; every table ends
with isDragging false. -/
def handleMouseUp (param : Option String) (s : SyncState) : SyncState :=
  let user := getUserFromURL param
  let anyDragging := s.tables.any fun t => t.isDragging
  { s with tables := s.tables.map fun t => { t with isDragging := false }
           audit := s.audit ++ moveLogs user s.tables
           unsavedChanges := if anyDragging then true else s.unsavedChanges
           isLocalUpdate := if anyDragging then true else s.isLocalUpdate }

/-- The JS spread with a computed key, written onto the typed Chair record:
the source UI only ever passes the keys name and group, which are the two
representable on this record; the behaviour on arbitrary keys (id, angle or
brand-new keys) is modelled faithfully by spreadSet on ChairObj below. -/
def setField (c : Chair) (field value : String) : Chair :=
  if field = "name" then { c with name := value }
  else if field = "group" then { c with group := value }
  else c

/-- The update_chair log entries issued inside the updateChair maps: one per
chair with the given id inside each table with the given id, recording the
previous and updated chair. -/
def updateChairLogs (user : String) (tableId chairId : Int) (field value : String)
    (tables : List Table) : List AuditEntry :=
  tables.flatMap fun t =>
    if t.id = tableId then
      t.chairs.filterMap fun c =>
        if c.id = chairId then
          some { user := user, action := "update_chair"
                 details := .updateChair tableId chairId field c (setField c field value) }
        else none
    else []

/-- updateChair (lines 226-258): sets the dirty flag and the isLocalUpdate
ref unconditionally, then replaces the named field of the matching chair of
the matching table, logging the change. -/
def updateChair (param : Option String) (tableId chairId : Int) (field value : String)
    (s : SyncState) : SyncState :=
  let user := getUserFromURL param
  { s with unsavedChanges := true
           isLocalUpdate := true
           tables := s.tables.map fun t =>
             if t.id = tableId then
               { t with chairs := t.chairs.map fun c =>
                   if c.id = chairId then setField c field value else c }
             else t
           audit := s.audit ++ updateChairLogs user tableId chairId field value s.tables }

/-- The clamp Math.max(1, Math.min(10, n)) of line 269, as a Nat. -/
def clampCount (n : Int) : Nat :=
  (max 1 (min 10 n)).toNat

/-- The per-table body of adjustChairCount, which is the resizeSeats
operation of the specification: identity on the special table, otherwise
the chairs are rebuilt by createChairs at the clamped count with the old
chairs as prevChairs. -/
def resizeSeats (t : Table) (newCount : Int) : Table :=
  if t.special then t
  else { t with chairs := createChairs t.id (clampCount newCount) t.chairs }

/-- The adjust_chair_count log entries issued inside the adjustChairCount
map: one per matching non-special table, with the before and after counts. -/
def adjustLogs (user : String) (tableId : Int) (delta : Int) (tables : List Table) :
    List AuditEntry :=
  tables.filterMap fun t =>
    if t.id = tableId ∧ t.special = false then
      some { user := user, action := "adjust_chair_count"
             details := .adjustChairCount tableId t.chairs.length
               (clampCount ((t.chairs.length : Int) + delta)) }
    else none

/-- adjustChairCount (lines 261-279): sets the dirty flag and the
isLocalUpdate ref unconditionally (before the map, hence also when the
target is special or absent), then resizes the matching table.  The
requested count is the previous length plus delta. -/
def adjustChairCount (param : Option String) (tableId : Int) (delta : Int)
    (s : SyncState) : SyncState :=
  let user := getUserFromURL param
  { s with unsavedChanges := true
           isLocalUpdate := true
           tables := s.tables.map fun t =>
             if t.id = tableId then resizeSeats t ((t.chairs.length : Int) + delta) else t
           audit := s.audit ++ adjustLogs user tableId delta s.tables }

/-- handleSave (lines 282-297), parameterised by the outcome of the upsert.
The dirty flag is cleared before the upsert is issued and is not restored
in the failure branch, which only records a console error; the success
branch sets savedTables to tables and logs a save_tables entry. -/
def handleSave (param : Option String) (upsertOk : Bool) (s : SyncState) : SyncState :=
  let user := getUserFromURL param
  let s1 := { s with isLocalUpdate := true
                     unsavedChanges := false
                     upserts := s.upserts ++ [s.tables] }
  if upsertOk then
    { s1 with savedTables := s.tables
              audit := s1.audit ++ [{ user := user, action := "save_tables"
                                      details := .saveTables }] }
  else
    { s1 with errors := s1.errors ++ ["Erreur enregistrement Supabase"] }

/-- handleReset (lines 300-306): tables becomes savedTables, the dirty flag
and the isLocalUpdate ref are cleared, a reset_changes entry is logged; no
upsert is issued. -/
def handleReset (param : Option String) (s : SyncState) : SyncState :=
  let user := getUserFromURL param
  { s with tables := s.savedTables
           unsavedChanges := false
           isLocalUpdate := false
           audit := s.audit ++ [{ user := user, action := "reset_changes"
                                  details := .resetChanges }] }

/-- The local mutators of the session: the drag gesture handlers, the chair
field editor, and the chair count adjuster.  Persist and reconciliation
steps (initialLoad, onRemoteUpdate, autoSaveEffect, handleSave,
handleReset) are deliberately not included. -/
inductive LocalMutation where
  | mouseDown (id : Int) (clientX clientY : Rat)
  | mouseMove (clientX clientY : Rat)
  | mouseUp (param : Option String)
  | editChair (param : Option String) (tableId chairId : Int) (field value : String)
  | adjust (param : Option String) (tableId : Int) (delta : Int)

/-- Dispatch one local mutation. -/
def applyMutation (m : LocalMutation) (s : SyncState) : SyncState :=
  match m with
  | .mouseDown id cx cy => handleMouseDown id cx cy s
  | .mouseMove cx cy => handleMouseMove cx cy s
  | .mouseUp p => handleMouseUp p s
  | .editChair p tid cid f v => updateChair p tid cid f v s
  | .adjust p tid d => adjustChairCount p tid d s

/-- Apply a sequence of local mutations from left to right. -/
def applyMutations (ms : List LocalMutation) (s : SyncState) : SyncState :=
  ms.foldl (fun s m => applyMutation m s) s

/-- A dynamically typed JS value, enough for the chair objects: strings and
numbers. -/
inductive JsValue where
  | str (s : String)
  | num (q : Rat)
deriving DecidableEq

/-- A chair as the untyped JS object it really is: an ordered list of
key-value bindings. -/
abbrev ChairObj := List (String × JsValue)

/-- Property read on a JS object: the value of the binding of the key, if
any (JS objects have at most one binding per key; on a list with duplicate
keys the first binding is returned). -/
def lookupKey : ChairObj → String → Option JsValue
  | [], _ => none
  | kv :: rest, k => if kv.1 == k then some kv.2 else lookupKey rest k

/-- The JS object spread with a computed key from line 241: every existing
binding of the key has its value replaced in place, otherwise the new
binding is appended at the end. -/
def spreadSet (o : ChairObj) (field : String) (v : JsValue) : ChairObj :=
  if o.any fun kv => kv.1 == field then
    o.map fun kv => if kv.1 == field then (kv.1, v) else kv
  else o ++ [(field, v)]

/-- A table whose chairs are untyped JS objects, for the dynamic-field view
of updateChair. -/
structure TableObj where
  id : Int
  x : Rat
  y : Rat
  chairs : List ChairObj
  isDragging : Bool
  special : Bool
deriving DecidableEq

/-- The inner chair map of updateChair (lines 238-252) on untyped chair
objects: the strict comparison c.id === chairId holds exactly when the id
binding is the number chairId, and the spread writes the string value onto
the binding named by field. -/
def updateChairObjChair (chairId : Int) (field value : String) (c : ChairObj) : ChairObj :=
  if lookupKey c "id" = some (JsValue.num chairId) then spreadSet c field (JsValue.str value)
  else c

/-- The outer table map of updateChair (lines 236-255) on untyped chair
objects. -/
def updateChairObjTable (tableId chairId : Int) (field value : String)
    (t : TableObj) : TableObj :=
  if t.id = tableId then
    { t with chairs := t.chairs.map (updateChairObjChair chairId field value) }
  else t

/-- The tables update performed by updateChair (lines 235-257), on the
untyped chair objects. -/
def updateChairObj (tableId chairId : Int) (field value : String)
    (tables : List TableObj) : List TableObj :=
  tables.map (updateChairObjTable tableId chairId field value)

/- Concrete fixtures used by witnesses and counterexamples. -/

/-- A blank chair with id 100, as on table 1 of the seed layout. -/
def chairA : Chair := { id := 100, name := "", group := "", angle := 0 }

/-- A one-table layout used as a small fixture. -/
def tableA : Table :=
  { id := 1, x := 0, y := 0, chairs := [chairA], isDragging := false, special := false }

/-- The special head table of the seed layout. -/
def specialTable : Table :=
  { id := 0, x := 700, y := 80
    chairs := [ { id := 1, name := "", group := "", angle := 0 }
              , { id := 2, name := "", group := "", angle := 1 } ]
    isDragging := false, special := true }

/-- A regular table with two occupied chairs, for resize fixtures. -/
def tableB : Table :=
  { id := 1, x := 0, y := 0
    chairs := [ { id := 100, name := "Alice", group := "Famille Konkobo", angle := 0 }
              , { id := 101, name := "", group := "", angle := 1 } ]
    isDragging := false, special := false }

/-- A small clean state: draft and saved agree, nothing dirty, no effects. -/
def sClean : SyncState :=
  { tables := [tableA]
    savedTables := [tableA]
    unsavedChanges := false
    isLocalUpdate := false
    isRemoteUpdate := false
    dragOffset := (0, 0)
    audit := []
    upserts := []
    errors := [] }

/-- sClean with pending unsaved changes. -/
def sDirty : SyncState := { sClean with unsavedChanges := true }

/-- sClean with pending unsaved changes and the isLocalUpdate ref set, as
right after a local mutation. -/
def sDirtyLocal : SyncState :=
  { sClean with unsavedChanges := true, isLocalUpdate := true }

/-- sClean right after a write of the session, with both ref flags set, as
when a self-echo notification has just been delivered. -/
def sEcho : SyncState :=
  { sClean with isLocalUpdate := true, isRemoteUpdate := true }

/-- The state reached from initialState by a remote update that delivers the
one-table layout [specialTable]. -/
def sRemote : SyncState := onRemoteUpdate [specialTable] initialState

/-- An untyped chair object as built by the seed layout. -/
def chairObjA : ChairObj :=
  [("id", JsValue.num 100), ("name", JsValue.str "Bob"),
   ("group", JsValue.str ""), ("angle", JsValue.num 0)]

/-- A one-chair untyped table fixture. -/
def tableObjA : TableObj :=
  { id := 1, x := 0, y := 0, chairs := [chairObjA], isDragging := false, special := false }

/- Helper lemmas. -/

theorem createChairs_length (tableId : Int) (count : Nat) (prev : List Chair) :
    (createChairs tableId count prev).length = count := by
  simp [createChairs]

theorem createChairs_getElem (tableId : Int) (count : Nat) (prev : List Chair)
    (i : Nat) (h : i < count) :
    (createChairs tableId count prev)[i]? =
      some { id := tableId * 100 + i
             name := match prev[i]? with | some c => c.name | none => ""
             group := match prev[i]? with | some c => c.group | none => ""
             angle := i * (2 / (count : Rat)) } := by
  simp [createChairs, List.getElem?_map, List.getElem?_range, h]

theorem applyMutation_savedTables (m : LocalMutation) (s : SyncState) :
    (applyMutation m s).savedTables = s.savedTables := by
  cases m <;> rfl

theorem applyMutation_upserts (m : LocalMutation) (s : SyncState) :
    (applyMutation m s).upserts = s.upserts := by
  cases m <;> rfl

theorem applyMutations_savedTables (ms : List LocalMutation) (s : SyncState) :
    (applyMutations ms s).savedTables = s.savedTables := by
  induction ms generalizing s with
  | nil => rfl
  | cons m ms ih =>
      have h : applyMutations (m :: ms) s = applyMutations ms (applyMutation m s) := rfl
      rw [h, ih, applyMutation_savedTables]

theorem applyMutations_upserts (ms : List LocalMutation) (s : SyncState) :
    (applyMutations ms s).upserts = s.upserts := by
  induction ms generalizing s with
  | nil => rfl
  | cons m ms ih =>
      have h : applyMutations (m :: ms) s = applyMutations ms (applyMutation m s) := rfl
      rw [h, ih, applyMutation_upserts]

/- Claim C1. -/

/-- Claim C1 counterexample: sDirty has unsaved changes; the manual save
with a failing upsert is a persist attempt whose upsert fails (the payload
is recorded in upserts), yet afterwards the dirty flag is false, not true
as the claim requires. -/
theorem claim1_counterexample :
    sDirty.unsavedChanges = true ∧
    (handleSave none false sDirty).upserts = [sDirty.tables] ∧
    (handleSave none false sDirty).unsavedChanges = false :=
  ⟨rfl, rfl, rfl⟩

/-- Claim C1 (corrected): when the automatic persist fails, tables,
savedTables and the dirty flag are all unchanged, so the dirty flag set by
the triggering mutation remains true and a retry is possible; when the
manual save fails, tables and savedTables are preserved but the dirty
flag, cleared unconditionally before the upsert, ends up false. -/
theorem claim1_persist_failure (s : SyncState) (param : Option String) :
    (s.isRemoteUpdate = false → s.isLocalUpdate = true →
      (autoSaveEffect false s).tables = s.tables ∧
      (autoSaveEffect false s).savedTables = s.savedTables ∧
      (autoSaveEffect false s).unsavedChanges = s.unsavedChanges) ∧
    ((handleSave param false s).tables = s.tables ∧
     (handleSave param false s).savedTables = s.savedTables ∧
     (handleSave param false s).unsavedChanges = false) := by
  constructor
  · intro h1 h2
    refine ⟨?_, ?_, ?_⟩ <;> simp [autoSaveEffect, h1, h2]
  · exact ⟨rfl, rfl, rfl⟩

/-- Claim C1 witness: at sDirtyLocal both failing persist paths preserve the
draft, and the automatic one leaves the dirty flag true. -/
theorem claim1_persist_failure_witness :
    (autoSaveEffect false sDirtyLocal).unsavedChanges = true ∧
    (autoSaveEffect false sDirtyLocal).tables = sDirtyLocal.tables ∧
    (handleSave none false sDirtyLocal).tables = sDirtyLocal.tables := by
  obtain ⟨h1, h2⟩ := claim1_persist_failure sDirtyLocal none
  obtain ⟨ht, hs, hu⟩ := h1 rfl rfl
  exact ⟨by rw [hu]; rfl, ht, h2.1⟩

/- Claim C2. -/

/-- Claim C2 (confirmed): a remote notification carrying layout L always
sets savedTables to L; when the dirty flag is false the draft becomes
exactly L and the dirty flag stays false; when it is true the draft is
left unchanged. -/
theorem claim2_onRemoteUpdate (s : SyncState) (L : List Table) :
    (onRemoteUpdate L s).savedTables = L ∧
    (s.unsavedChanges = false →
      (onRemoteUpdate L s).tables = L ∧ (onRemoteUpdate L s).unsavedChanges = false) ∧
    (s.unsavedChanges = true → (onRemoteUpdate L s).tables = s.tables) := by
  refine ⟨rfl, fun h => ⟨?_, ?_⟩, fun h => ?_⟩ <;> simp [onRemoteUpdate, h]

/-- Claim C2 witness: a clean session adopts the remote layout wholesale and
stays clean; a dirty session keeps its draft. -/
theorem claim2_onRemoteUpdate_witness :
    (onRemoteUpdate [tableB] sClean).savedTables = [tableB] ∧
    (onRemoteUpdate [tableB] sClean).tables = [tableB] ∧
    (onRemoteUpdate [tableB] sClean).unsavedChanges = false ∧
    (onRemoteUpdate [tableB] sDirty).tables = sDirty.tables := by
  obtain ⟨h1, h2, -⟩ := claim2_onRemoteUpdate sClean [tableB]
  obtain ⟨h3, h4⟩ := h2 rfl
  obtain ⟨-, -, h5⟩ := claim2_onRemoteUpdate sDirty [tableB]
  exact ⟨h1, h3, h4, h5 rfl⟩

/- Claim C3. -/

/-- Claim C3 counterexample: delivering a notification never clears either
ref flag.  At sEcho both flags are set and stay set across the
notification, and at sClean the notification sets isRemoteUpdate rather
than clearing anything, refuting that a suppression flag is set before a
local write completes and cleared on the first subsequent notification. -/
theorem claim3_counterexample :
    (onRemoteUpdate [tableA] sEcho).isRemoteUpdate = true ∧
    (onRemoteUpdate [tableA] sEcho).isLocalUpdate = true ∧
    sClean.isRemoteUpdate = false ∧
    (onRemoteUpdate [tableA] sClean).isRemoteUpdate = true :=
  ⟨rfl, rfl, rfl, rfl⟩

/-- Claim C3 (corrected): the one-shot suppression flag isRemoteUpdate is
set by every notification (a self-echo included) and is cleared by the
first subsequent run of the auto-save effect, which then skips the upsert
entirely, so a self-echo does not trigger a duplicate write; a self-echo
does not overwrite the draft while dirty edits are in flight because the
notification handler keeps the previous tables whenever the dirty flag is
set, not because of the suppression flag. -/
theorem claim3_suppression (s : SyncState) (L : List Table) (ok : Bool) :
    (onRemoteUpdate L s).isRemoteUpdate = true ∧
    (s.isRemoteUpdate = true →
      autoSaveEffect ok s = { s with isRemoteUpdate := false }) ∧
    (s.unsavedChanges = true → (onRemoteUpdate L s).tables = s.tables) := by
  refine ⟨rfl, fun h => ?_, fun h => ?_⟩ <;> simp [autoSaveEffect, onRemoteUpdate, h]

/-- Claim C3 witness: right after a self-echo is delivered at sEcho, the
next auto-save run only consumes the flag and issues no upsert; a dirty
session keeps its draft across a notification. -/
theorem claim3_suppression_witness :
    (onRemoteUpdate [tableA] sEcho).isRemoteUpdate = true ∧
    autoSaveEffect true sEcho = { sEcho with isRemoteUpdate := false } ∧
    (onRemoteUpdate [tableA] sDirty).tables = sDirty.tables := by
  obtain ⟨h1, h2, -⟩ := claim3_suppression sEcho [tableA] true
  obtain ⟨-, -, h3⟩ := claim3_suppression sDirty [tableA] true
  exact ⟨h1, h2 rfl, h3 rfl⟩

/- Claim C4. -/

/-- Claim C4 counterexample: when the initial read fails (in particular when
the document is not found), the load effect leaves the state unchanged: no
seeding upsert is issued and no error is surfaced. -/
theorem claim4_counterexample :
    initialLoad ReadResult.notFoundOrError initialState = initialState ∧
    (initialLoad ReadResult.notFoundOrError initialState).upserts = [] ∧
    (initialLoad ReadResult.notFoundOrError initialState).errors = [] :=
  ⟨rfl, rfl, rfl⟩

/-- Claim C4 (corrected): the initial load reads the layout document by the
fixed id; when the row is found both draft and saved become the fetched
value; when the row is missing or the read fails the effect does nothing:
the store is not seeded, no error is surfaced, and the locally generated
initial layout silently stays in place. -/
theorem claim4_initialLoad (s : SyncState) (d : List Table) :
    initialLoad (ReadResult.found d) s = { s with tables := d, savedTables := d } ∧
    initialLoad ReadResult.notFoundOrError s = s :=
  ⟨rfl, rfl⟩

/- Claim C5. -/

/-- Claim C5 (confirmed): resizeSeats clamps the requested count to the
closed range [1, 10] (and the clamp is the identity on requests already in
the range), returns a special table unchanged, and otherwise produces
exactly the clamped number of chairs with identities t.id*100+i, evenly
re-angled at steps of 2 pi / count (2/count in units of pi), copying the
prior name and group at each index where an old chair existed and leaving
new slots blank. -/
theorem claim5_resizeSeats (t : Table) (n : Int) :
    (t.special = true → resizeSeats t n = t) ∧
    (t.special = false →
      1 ≤ clampCount n ∧ clampCount n ≤ 10 ∧
      (1 ≤ n → n ≤ 10 → (clampCount n : Int) = n) ∧
      (resizeSeats t n).chairs.length = clampCount n ∧
      ∀ i, i < clampCount n →
        (resizeSeats t n).chairs[i]? =
          some { id := t.id * 100 + i
                 name := match t.chairs[i]? with | some p => p.name | none => ""
                 group := match t.chairs[i]? with | some p => p.group | none => ""
                 angle := i * (2 / (clampCount n : Rat)) }) := by
  constructor
  · intro h
    simp [resizeSeats, h]
  · intro h
    refine ⟨?_, ?_, ?_, ?_, ?_⟩
    · unfold clampCount
      omega
    · unfold clampCount
      omega
    · intro h1 h2
      unfold clampCount
      omega
    · simp [resizeSeats, h, createChairs_length]
    · intro i hi
      simp [resizeSeats, h, createChairs_getElem _ _ _ i hi]

/-- Claim C5 witness: resizing the special table to 5 is the identity;
resizing tableB (2 chairs, the first named Alice) to 5 yields 5 chairs,
keeps the name at index 0 and leaves the new slot at index 2 blank. -/
theorem claim5_resizeSeats_witness :
    resizeSeats specialTable 5 = specialTable ∧
    (resizeSeats tableB 5).chairs.length = 5 ∧
    ((resizeSeats tableB 5).chairs[0]?.map Chair.name) = some "Alice" ∧
    ((resizeSeats tableB 5).chairs[2]?.map Chair.name) = some "" := by
  obtain ⟨hs, -⟩ := claim5_resizeSeats specialTable 5
  obtain ⟨-, hr⟩ := claim5_resizeSeats tableB 5
  obtain ⟨-, -, -, hlen, hch⟩ := hr rfl
  have h0 := hch 0 (by decide)
  have h2 := hch 2 (by decide)
  refine ⟨hs rfl, by rw [hlen]; rfl, ?_, ?_⟩
  · rw [h0]; rfl
  · rw [h2]; rfl

/- Claim C6. -/

/-- Claim C6 (confirmed): after any sequence of local mutations, reset sets
the draft exactly to the saved snapshot (which local mutations never
touch), clears the dirty flag, appends a reset_changes audit entry, and
issues no upsert. -/
theorem claim6_reset (s : SyncState) (ms : List LocalMutation) (param : Option String) :
    (handleReset param (applyMutations ms s)).tables = s.savedTables ∧
    (handleReset param (applyMutations ms s)).unsavedChanges = false ∧
    (handleReset param (applyMutations ms s)).audit =
      (applyMutations ms s).audit ++
        [{ user := getUserFromURL param, action := "reset_changes"
           details := LogDetails.resetChanges }] ∧
    (handleReset param (applyMutations ms s)).upserts = s.upserts := by
  refine ⟨?_, rfl, rfl, ?_⟩
  · show (applyMutations ms s).savedTables = s.savedTables
    exact applyMutations_savedTables ms s
  · show (applyMutations ms s).upserts = s.upserts
    exact applyMutations_upserts ms s

/- Claim C7. -/

/-- Claim C7 counterexample: sRemote is reached from the mounted state by a
single remote update; its draft and saved snapshot agree and the dirty
flag is false, yet adjusting the chair count of the special table leaves
the draft and the saved snapshot unchanged while setting the dirty flag,
so an operation sets dirty without changing the draft. -/
theorem claim7_counterexample :
    sRemote.tables = sRemote.savedTables ∧
    sRemote.unsavedChanges = false ∧
    (adjustChairCount none 0 1 sRemote).tables = sRemote.tables ∧
    (adjustChairCount none 0 1 sRemote).savedTables = sRemote.savedTables ∧
    (adjustChairCount none 0 1 sRemote).unsavedChanges = true := by
  refine ⟨rfl, rfl, ?_, rfl, rfl⟩
  decide

/-- Claim C7 (corrected): the dirty flag is not equivalent to the draft
holding unpersisted changes.  The chair mutators set the dirty flag
unconditionally, even when they leave the draft unchanged (as on the
special table), and the drag-move handler changes the draft without
touching the dirty flag, which is only set on mouse release. -/
theorem claim7_dirty_flag (s : SyncState) (param : Option String)
    (tableId chairId : Int) (delta : Int) (field value : String) (cx cy : Rat) :
    (adjustChairCount param tableId delta s).unsavedChanges = true ∧
    (updateChair param tableId chairId field value s).unsavedChanges = true ∧
    (handleMouseMove cx cy s).unsavedChanges = s.unsavedChanges ∧
    (handleMouseMove cx cy s).savedTables = s.savedTables :=
  ⟨rfl, rfl, rfl, rfl⟩

/- Claim C8. -/

/-- Claim C8 counterexample: the first seat of the special table (id 0) has
identity 1, not tableId*100+index = 0. -/
theorem claim8_counterexample :
    (generateInitialTables[0]?.map fun t => t.chairs[0]?.map Chair.id) = some (some 1) ∧
    (1 : Int) ≠ 0 * 100 + 0 :=
  ⟨rfl, by decide⟩

/-- Claim C8 (corrected): generateInitialTables deterministically produces
51 tables: one special table with id 0 holding exactly 2 seats at angles 0
and pi whose identities are 1 and 2 (not tableId*100+index), plus regular
tables with ids 1..50, each holding 10 blank seats with identities
tableId*100+index, evenly spaced at 2 pi / 10 radians starting at 0. -/
theorem claim8_generateInitialTables :
    generateInitialTables.length = 51 ∧
    (generateInitialTables[0]?.map Table.id) = some 0 ∧
    (generateInitialTables[0]?.map Table.special) = some true ∧
    (generateInitialTables[0]?.map Table.chairs) =
      some [ { id := 1, name := "", group := "", angle := 0 }
           , { id := 2, name := "", group := "", angle := 1 } ] ∧
    (∀ k : Nat, 1 ≤ k → k ≤ 50 →
      ∃ t, generateInitialTables[k]? = some t ∧
        t.id = (k : Int) ∧ t.special = false ∧ t.chairs.length = 10 ∧
        ∀ i, i < 10 →
          t.chairs[i]? =
            some { id := (k : Int) * 100 + i, name := "", group := ""
                   angle := i * (2 / 10 : Rat) }) := by
  refine ⟨?_, rfl, rfl, rfl, ?_⟩
  · simp [generateInitialTables]
  · intro k h1 h2
    obtain ⟨j, rfl⟩ : ∃ j, k = j + 1 := ⟨k - 1, by omega⟩
    have hj : j < 50 := by omega
    have hnth : generateInitialTables[j + 1]? = some (regularTable (j + 1)) := by
      simp [generateInitialTables, List.getElem?_cons_succ, List.getElem?_map,
        List.getElem?_range, hj]
    refine ⟨regularTable (j + 1), hnth, rfl, rfl, ?_, ?_⟩
    · show (createChairs ((j + 1 : Nat) : Int) 10 []).length = 10
      exact createChairs_length _ _ _
    · intro i hi
      have h := createChairs_getElem ((j + 1 : Nat) : Int) 10 [] i hi
      simpa [regularTable] using h

/-- Claim C8 witness: table 7 of the seed layout has id 7 and its seat at
index 3 has identity 703 with angle 3 * (2 pi / 10). -/
theorem claim8_generateInitialTables_witness :
    generateInitialTables.length = 51 ∧
    (∃ t, generateInitialTables[7]? = some t ∧ t.id = 7 ∧
      t.chairs[3]? = some { id := 703, name := "", group := ""
                            angle := 3 * (2 / 10 : Rat) }) := by
  obtain ⟨hlen, -, -, -, h⟩ := claim8_generateInitialTables
  obtain ⟨t, ht, hid, -, -, hch⟩ := h 7 (by norm_num) (by norm_num)
  refine ⟨hlen, t, ht, by simpa using hid, ?_⟩
  have h3 := hch 3 (by norm_num)
  rw [h3]
  norm_num [Chair.mk.injEq, Option.some.injEq]

/- Claim C9. -/

theorem moveLogs_user (u : String) (ts : List Table) (e : AuditEntry)
    (he : e ∈ moveLogs u ts) : e.user = u := by
  simp only [moveLogs, List.mem_filterMap] at he
  obtain ⟨t, -, ht⟩ := he
  split at ht
  · have h := Option.some_inj.mp ht
    subst h
    rfl
  · exact Option.noConfusion ht

theorem updateChairLogs_user (u : String) (tid cid : Int) (f v : String)
    (ts : List Table) (e : AuditEntry) (he : e ∈ updateChairLogs u tid cid f v ts) :
    e.user = u := by
  simp only [updateChairLogs, List.mem_flatMap] at he
  obtain ⟨t, -, ht⟩ := he
  split at ht
  · simp only [List.mem_filterMap] at ht
    obtain ⟨c, -, hc⟩ := ht
    split at hc
    · have h := Option.some_inj.mp hc
      subst h
      rfl
    · exact Option.noConfusion hc
  · exact absurd ht (List.not_mem_nil e)

theorem adjustLogs_user (u : String) (tid : Int) (d : Int)
    (ts : List Table) (e : AuditEntry) (he : e ∈ adjustLogs u tid d ts) :
    e.user = u := by
  simp only [adjustLogs, List.mem_filterMap] at he
  obtain ⟨t, -, ht⟩ := he
  split at ht
  · have h := Option.some_inj.mp ht
    subst h
    rfl
  · exact Option.noConfusion ht

/-- Claim C9 counterexample: the default operator label when the URL query
parameter is absent is the literal "Anonyme", not "Anonymous". -/
theorem claim9_counterexample :
    getUserFromURL none = "Anonyme" ∧ "Anonyme" ≠ "Anonymous" :=
  ⟨rfl, by decide⟩

/-- Claim C9 (corrected): the operator identity is read from the user URL
query parameter, and when it is absent the label is the literal "Anonyme";
every audit entry appended by any of the logging entry points with the
parameter absent carries that label. -/
theorem claim9_operator_label (s : SyncState) (tableId chairId : Int)
    (delta : Int) (field value : String) (e : AuditEntry) :
    getUserFromURL none = "Anonyme" ∧
    (e ∈ (handleReset none s).audit → e ∈ s.audit ∨ e.user = "Anonyme") ∧
    (e ∈ (handleMouseUp none s).audit → e ∈ s.audit ∨ e.user = "Anonyme") ∧
    (e ∈ (updateChair none tableId chairId field value s).audit →
      e ∈ s.audit ∨ e.user = "Anonyme") ∧
    (e ∈ (adjustChairCount none tableId delta s).audit →
      e ∈ s.audit ∨ e.user = "Anonyme") ∧
    (e ∈ (handleSave none true s).audit → e ∈ s.audit ∨ e.user = "Anonyme") := by
  refine ⟨rfl, ?_, ?_, ?_, ?_, ?_⟩
  · intro he
    rcases List.mem_append.mp he with h | h
    · exact Or.inl h
    · right
      have h2 := List.mem_singleton.mp h
      subst h2
      rfl
  · intro he
    rcases List.mem_append.mp he with h | h
    · exact Or.inl h
    · exact Or.inr (moveLogs_user _ _ _ h)
  · intro he
    rcases List.mem_append.mp he with h | h
    · exact Or.inl h
    · exact Or.inr (updateChairLogs_user _ _ _ _ _ _ _ h)
  · intro he
    rcases List.mem_append.mp he with h | h
    · exact Or.inl h
    · exact Or.inr (adjustLogs_user _ _ _ _ _ h)
  · intro he
    rcases List.mem_append.mp he with h | h
    · exact Or.inl h
    · right
      have h2 := List.mem_singleton.mp h
      subst h2
      rfl

/-- Claim C9 witness: the reset_changes entry appended by a reset with the
parameter absent carries the label "Anonyme". -/
theorem claim9_operator_label_witness :
    getUserFromURL none = "Anonyme" ∧
    (({ user := "Anonyme", action := "reset_changes"
        details := LogDetails.resetChanges } : AuditEntry) ∈ sClean.audit ∨
      ({ user := "Anonyme", action := "reset_changes"
         details := LogDetails.resetChanges } : AuditEntry).user = "Anonyme") := by
  obtain ⟨h1, h2, -, -, -, -⟩ := claim9_operator_label sClean 0 0 0 "" ""
    { user := "Anonyme", action := "reset_changes", details := LogDetails.resetChanges }
  exact ⟨h1, h2 (by decide)⟩

/- Claim C10. -/

theorem lookupKey_replace_present (o : ChairObj) (field : String) (v : JsValue)
    (h : o.any (fun kv => kv.1 == field) = true) :
    lookupKey (o.map fun kv => if kv.1 == field then (kv.1, v) else kv) field = some v := by
  induction o with
  | nil => simp at h
  | cons kv rest ih =>
      by_cases hk : (kv.1 == field) = true
      · simp [lookupKey, hk]
      · have h2 : (rest.any fun kv => kv.1 == field) = true := by
          simpa [List.any_cons, hk] using h
        simpa [lookupKey, hk] using ih h2

theorem lookupKey_replace_other (o : ChairObj) (field k : String) (v : JsValue)
    (hne : k ≠ field) :
    lookupKey (o.map fun kv => if kv.1 == field then (kv.1, v) else kv) k = lookupKey o k := by
  induction o with
  | nil => rfl
  | cons kv rest ih =>
      by_cases hk : (kv.1 == k) = true
      · have hkey : kv.1 = k := by simpa using hk
        have hkf : (kv.1 == field) = false := by
          rw [hkey]
          simpa using hne
        simp [lookupKey, hk, hkf]
      · by_cases hkf : (kv.1 == field) = true
        · simpa [lookupKey, hk, hkf] using ih
        · simpa [lookupKey, hk, hkf] using ih

theorem lookupKey_append_absent_self (o : ChairObj) (field : String) (v : JsValue)
    (h : o.any (fun kv => kv.1 == field) = false) :
    lookupKey (o ++ [(field, v)]) field = some v := by
  induction o with
  | nil => simp [lookupKey]
  | cons kv rest ih =>
      simp only [List.any_cons, Bool.or_eq_false_iff] at h
      simpa [List.cons_append, lookupKey, h.1] using ih h.2

theorem lookupKey_append_other (o : ChairObj) (field k : String) (v : JsValue)
    (hne : k ≠ field) :
    lookupKey (o ++ [(field, v)]) k = lookupKey o k := by
  induction o with
  | nil =>
      have hfk : (field == k) = false := by
        simpa using fun hh => hne hh.symm
      simp [lookupKey, hfk]
  | cons kv rest ih =>
      by_cases hk : (kv.1 == k) = true
      · simp [List.cons_append, lookupKey, hk]
      · simpa [List.cons_append, lookupKey, hk] using ih

theorem lookupKey_spreadSet_self (o : ChairObj) (field : String) (v : JsValue) :
    lookupKey (spreadSet o field v) field = some v := by
  unfold spreadSet
  by_cases h : (o.any fun kv => kv.1 == field) = true
  · rw [if_pos h]
    exact lookupKey_replace_present o field v h
  · rw [if_neg h]
    exact lookupKey_append_absent_self o field v (by simp only [Bool.not_eq_true] at h; exact h)

theorem lookupKey_spreadSet_other (o : ChairObj) (field k : String) (v : JsValue)
    (hne : k ≠ field) :
    lookupKey (spreadSet o field v) k = lookupKey o k := by
  unfold spreadSet
  by_cases h : (o.any fun kv => kv.1 == field) = true
  · rw [if_pos h]
    exact lookupKey_replace_other o field k v hne
  · rw [if_neg h]
    exact lookupKey_append_other o field k v hne

/-- Claim C10 (confirmed): updateChair leaves every table other than the one
with id tableId unchanged, keeps all non-chairs fields of the target table,
leaves every chair whose id binding is not the number chairId unchanged,
and rewrites the matching chair by the JS spread, which sets the binding
named by field to the given string value, for any field string including
unvalidated names such as id or angle, and leaves every other binding
unchanged. -/
theorem claim10_updateChair_frame (tables : List TableObj) (tableId chairId : Int)
    (field value : String) :
    (updateChairObj tableId chairId field value tables).length = tables.length ∧
    (∀ (i : Nat) (t : TableObj), tables[i]? = some t →
      (updateChairObj tableId chairId field value tables)[i]? =
        some (updateChairObjTable tableId chairId field value t)) ∧
    (∀ t : TableObj, t.id ≠ tableId →
      updateChairObjTable tableId chairId field value t = t) ∧
    (∀ t : TableObj,
      (updateChairObjTable tableId chairId field value t).id = t.id ∧
      (updateChairObjTable tableId chairId field value t).x = t.x ∧
      (updateChairObjTable tableId chairId field value t).y = t.y ∧
      (updateChairObjTable tableId chairId field value t).isDragging = t.isDragging ∧
      (updateChairObjTable tableId chairId field value t).special = t.special ∧
      (updateChairObjTable tableId chairId field value t).chairs.length = t.chairs.length) ∧
    (∀ t : TableObj, t.id = tableId → ∀ (j : Nat) (c : ChairObj), t.chairs[j]? = some c →
      (updateChairObjTable tableId chairId field value t).chairs[j]? =
        some (updateChairObjChair chairId field value c)) ∧
    (∀ c : ChairObj, lookupKey c "id" ≠ some (JsValue.num chairId) →
      updateChairObjChair chairId field value c = c) ∧
    (∀ c : ChairObj, lookupKey c "id" = some (JsValue.num chairId) →
      updateChairObjChair chairId field value c = spreadSet c field (JsValue.str value)) ∧
    (∀ c : ChairObj,
      lookupKey (spreadSet c field (JsValue.str value)) field = some (JsValue.str value) ∧
      ∀ k, k ≠ field → lookupKey (spreadSet c field (JsValue.str value)) k = lookupKey c k) := by
  refine ⟨?_, ?_, ?_, ?_, ?_, ?_, ?_, ?_⟩
  · simp [updateChairObj]
  · intro i t ht
    rw [updateChairObj, List.getElem?_map, ht]
    rfl
  · intro t h
    simp [updateChairObjTable, h]
  · intro t
    unfold updateChairObjTable
    split <;> simp
  · intro t h j c hc
    have hu : updateChairObjTable tableId chairId field value t =
        { t with chairs := t.chairs.map (updateChairObjChair chairId field value) } := by
      simp [updateChairObjTable, h]
    rw [hu]
    show (t.chairs.map (updateChairObjChair chairId field value))[j]? =
      some (updateChairObjChair chairId field value c)
    rw [List.getElem?_map, hc]
    rfl
  · intro c h
    simp [updateChairObjChair, h]
  · intro c h
    simp [updateChairObjChair, h]
  · intro c
    exact ⟨lookupKey_spreadSet_self c field (JsValue.str value),
      fun k hk => lookupKey_spreadSet_other c field k (JsValue.str value) hk⟩

/-- Claim C10 witness: writing the unvalidated field id onto the chair with
id 100 of table 1 replaces the numeric id binding by the string and keeps
the name binding. -/
theorem claim10_updateChair_frame_witness :
    (updateChairObj 1 100 "id" "oops" [tableObjA])[0]? =
      some (updateChairObjTable 1 100 "id" "oops" tableObjA) ∧
    (updateChairObjTable 1 100 "id" "oops" tableObjA).chairs[0]? =
      some (updateChairObjChair 100 "id" "oops" chairObjA) ∧
    updateChairObjChair 100 "id" "oops" chairObjA =
      spreadSet chairObjA "id" (JsValue.str "oops") ∧
    lookupKey (spreadSet chairObjA "id" (JsValue.str "oops")) "id" =
      some (JsValue.str "oops") ∧
    lookupKey (spreadSet chairObjA "id" (JsValue.str "oops")) "name" =
      lookupKey chairObjA "name" := by
  obtain ⟨-, h2, -, -, h5, -, h7, h8⟩ :=
    claim10_updateChair_frame [tableObjA] 1 100 "id" "oops"
  exact ⟨h2 0 tableObjA (by decide), h5 tableObjA (by decide) 0 chairObjA (by decide),
    h7 chairObjA (by decide), (h8 chairObjA).1, (h8 chairObjA).2 "name" (by decide)⟩

end PlanTable
